import Mathlib

/-!
Shallow embedding of the stock-transaction core of the Alfamart stock
management system (`src/models/product.py`, `src/models/stock_transaction.py`,
and the stock route of `src/routes/product.py`).

Python exceptions are modelled with `Except`: each distinct `raise` site (or
route-level rejection) gets its own constructor of `StockError`, and the
accumulated business-rule violations produced by the `validate` methods get
their own constructors of `VError`, one per `errors.append` site.
State mutation is modelled functionally: a mutating method takes the record
and returns the updated record on success; on `.error` nothing is returned,
which models the Python behaviour of raising before any field is written
(every raise in the source happens before the assignment it guards).
-/

deriving instance DecidableEq for Except

namespace Alfamart

/-- One constructor per `errors.append(...)` site in the `validate` methods of
`stock_transaction.py`. -/
inductive VError where
  | refTooShort
  | quantityZero
  | unitCostNegative
  | productIdMissing
  | stockInQtyNotPositive
  | unitCostRequired
  | stockOutQtyNotNegative
  | insufficientStock
  | adjustmentQtyZero
  | insufficientStockAdjustment
deriving DecidableEq, Repr

/-- One constructor per distinct failure site of the embedded code:
`raise ValueError` sites in `product.py` / `stock_transaction.py`, the
factory's unsupported-type raise, the base class `NotImplementedError`,
and the 400 rejection of a negative quantity in the route's `set` branch. -/
inductive StockError where
  | invalidArgument
  | capacityExceeded
  | insufficientStock
  | alreadyProcessed
  | validationFailed (errors : List VError)
  | referenceTooShort
  | quantityZero
  | unitCostNegative
  | unsupportedType
  | notImplemented
  | setNegative
deriving DecidableEq, Repr

/-- Python `str.strip()`: drop whitespace from both ends.  Implemented over
the character list so that it reduces structurally. -/
def pyStrip (s : String) : String :=
  String.mk (((s.data.dropWhile Char.isWhitespace).reverse.dropWhile
      Char.isWhitespace).reverse)

/-- Python `str.upper()` on the ASCII alphabet. -/
def pyUpper (s : String) : String :=
  String.mk (s.data.map Char.toUpper)

/-- Python `len(s)`. -/
def pyLen (s : String) : Nat := s.data.length

/-- The fields of `Product` relevant to the stock core
(`product.py`, columns `_stock_quantity`, `_minimum_stock`, `_maximum_stock`). -/
structure Product where
  stock_quantity : Int
  minimum_stock : Int
  maximum_stock : Int
deriving DecidableEq, Repr

/-- `Product.add_stock` (product.py lines 193-207). -/
def Product.add_stock (p : Product) (quantity : Int) :
    Except StockError (Product × Int) :=
  if quantity ≤ 0 then
    .error .invalidArgument
  else
    let new_quantity := p.stock_quantity + quantity
    if new_quantity > p.maximum_stock then
      .error .capacityExceeded
    else
      .ok ({ p with stock_quantity := new_quantity }, new_quantity)

/-- `Product.reduce_stock` (product.py lines 209-222). -/
def Product.reduce_stock (p : Product) (quantity : Int) :
    Except StockError (Product × Int) :=
  if quantity ≤ 0 then
    .error .invalidArgument
  else if quantity > p.stock_quantity then
    .error .insufficientStock
  else
    .ok ({ p with stock_quantity := p.stock_quantity - quantity },
         p.stock_quantity - quantity)

/-- `Product.check_availability` (product.py lines 224-229). -/
def Product.check_availability (p : Product) (required_quantity : Int) : Bool :=
  decide (p.stock_quantity ≥ required_quantity)

/-- The invariant of spec §3: `0 ≤ stockQuantity ≤ maximumStock`. -/
def StockInvariant (p : Product) : Prop :=
  0 ≤ p.stock_quantity ∧ p.stock_quantity ≤ p.maximum_stock

instance (p : Product) : Decidable (StockInvariant p) :=
  inferInstanceAs (Decidable (_ ∧ _))

/-- `TransactionType` enum (stock_transaction.py lines 11-20). -/
inductive TransactionType where
  | STOCK_IN
  | STOCK_OUT
  | ADJUSTMENT
  | TRANSFER
  | RETURN
deriving DecidableEq, Repr

/-- The fields of `StockTransaction` relevant to the core.  `product` is the
SQLAlchemy relationship to the bound `Product` (absent when the row is not
bound); `product_id` is the raw foreign-key column. -/
structure StockTransaction where
  transaction_type : TransactionType
  reference_number : String
  product_id : Option Int
  quantity : Int
  unit_cost : Option Rat
  is_processed : Bool
  product : Option Product
deriving DecidableEq, Repr

/-- Python truthiness of `self.product_id` (`None` and `0` are falsy). -/
def pidTruthy : Option Int → Bool
  | none => false
  | some n => decide (n ≠ 0)

/-- The `unit_cost` property (stock_transaction.py lines 97-100):
`float(self._unit_cost) if self._unit_cost else 0`.  A stored `Decimal(0)` is
falsy and yields `0`, which coincides with its value, so the getter is
`getD 0`. -/
def StockTransaction.unit_cost_val (t : StockTransaction) : Rat :=
  t.unit_cost.getD 0

/-- `set_reference_number` (stock_transaction.py lines 80-84): rejects
references whose stripped form is shorter than 3 characters, stores the
stripped uppercased form.  (`not ref_number` is subsumed by the length
check, since the empty string strips to length 0.) -/
def set_reference_number (ref_number : String) : Except StockError String :=
  if pyLen (pyStrip ref_number) < 3 then
    .error .referenceTooShort
  else
    .ok (pyUpper (pyStrip ref_number))

/-- `set_quantity` (stock_transaction.py lines 91-95): only zero is rejected. -/
def set_quantity (quantity : Int) : Except StockError Int :=
  if quantity = 0 then .error .quantityZero else .ok quantity

/-- `set_unit_cost` (stock_transaction.py lines 102-106). -/
def set_unit_cost (cost : Option Rat) : Except StockError (Option Rat) :=
  match cost with
  | none => .ok none
  | some c => if c < 0 then .error .unitCostNegative else .ok (some c)

/-- `StockTransaction.__init__` (lines 61-72), with the polymorphic identity
tag the subclass assigns right after the `super().__init__` call.  The
constructed transaction is unbound (`product := none`); the relationship is
populated by the persistence layer from `product_id`. -/
def StockTransaction.init (ttype : TransactionType) (reference_number : String)
    (product_id : Option Int) (quantity : Int) (unit_cost : Option Rat) :
    Except StockError StockTransaction :=
  match set_reference_number reference_number with
  | .error e => .error e
  | .ok ref =>
    match set_quantity quantity with
    | .error e => .error e
    | .ok q =>
      match set_unit_cost unit_cost with
      | .error e => .error e
      | .ok c =>
        .ok { transaction_type := ttype
              reference_number := ref
              product_id := product_id
              quantity := q
              unit_cost := c
              is_processed := false
              product := none }

/-- `StockInTransaction.__init__` (lines 222-227): passes the caller's
quantity through to the base constructor unchanged. -/
def StockInTransaction.init (reference_number : String) (product_id : Option Int)
    (quantity : Int) (unit_cost : Option Rat) : Except StockError StockTransaction :=
  StockTransaction.init .STOCK_IN reference_number product_id quantity unit_cost

/-- `StockOutTransaction.__init__` (lines 256-261): stores `-abs(quantity)`
and no unit cost. -/
def StockOutTransaction.init (reference_number : String) (product_id : Option Int)
    (quantity : Int) : Except StockError StockTransaction :=
  StockTransaction.init .STOCK_OUT reference_number product_id (-|quantity|) none

/-- `StockAdjustmentTransaction.__init__` (lines 291-296): stores the signed
adjustment quantity and no unit cost. -/
def StockAdjustmentTransaction.init (reference_number : String)
    (product_id : Option Int) (adjustment_quantity : Int) :
    Except StockError StockTransaction :=
  StockTransaction.init .ADJUSTMENT reference_number product_id
    adjustment_quantity none

/-- The common checks of `StockTransaction.validate` (lines 176-192).  The
getter `self.unit_cost` in the Python check is never `None` (it defaults to
`0`), so the cost check reduces to `unit_cost_val < 0`. -/
def StockTransaction.base_validate (t : StockTransaction) : List VError :=
  (if pyLen (pyStrip t.reference_number) < 3 then [VError.refTooShort] else []) ++
  (if t.quantity = 0 then [VError.quantityZero] else []) ++
  (if t.unit_cost_val < 0 then [VError.unitCostNegative] else []) ++
  (if pidTruthy t.product_id then [] else [VError.productIdMissing])

/-- `StockInTransaction.validate` (lines 234-244).  `not self.unit_cost or
self.unit_cost <= 0` is `unit_cost_val ≤ 0` since `0.0` is falsy. -/
def stockIn_validate (t : StockTransaction) : List VError :=
  t.base_validate ++
  (if t.quantity ≤ 0 then [VError.stockInQtyNotPositive] else []) ++
  (if t.unit_cost_val ≤ 0 then [VError.unitCostRequired] else [])

/-- `StockOutTransaction.validate` (lines 268-279).  The availability check
runs only when the product relationship is bound. -/
def stockOut_validate (t : StockTransaction) : List VError :=
  t.base_validate ++
  (if t.quantity ≥ 0 then [VError.stockOutQtyNotNegative] else []) ++
  (match t.product with
   | none => []
   | some p =>
       if p.check_availability |t.quantity| then [] else [VError.insufficientStock])

/-- `StockAdjustmentTransaction.validate` (lines 306-318). -/
def stockAdjustment_validate (t : StockTransaction) : List VError :=
  t.base_validate ++
  (if t.quantity = 0 then [VError.adjustmentQtyZero] else []) ++
  (if t.quantity < 0 then
     match t.product with
     | none => []
     | some p =>
         if p.check_availability |t.quantity| then []
         else [VError.insufficientStockAdjustment]
   else [])

/-- Virtual dispatch of `validate` on the polymorphic identity.  A row whose
tag has no subclass (TRANSFER, RETURN) uses the base class method. -/
def StockTransaction.validate (t : StockTransaction) : List VError :=
  match t.transaction_type with
  | .STOCK_IN => stockIn_validate t
  | .STOCK_OUT => stockOut_validate t
  | .ADJUSTMENT => stockAdjustment_validate t
  | _ => t.base_validate

/-- Virtual dispatch of `_apply_transaction`: the subclasses (lines 229-232,
263-266, 298-304) mutate the bound product through `add_stock` /
`reduce_stock`, each guarded by `if self.product:`; the base class
(lines 151-156) raises `NotImplementedError`. -/
def applyTransaction (t : StockTransaction) : Except StockError StockTransaction :=
  match t.transaction_type with
  | .STOCK_IN =>
      match t.product with
      | none => .ok t
      | some p =>
          match p.add_stock t.quantity with
          | .error e => .error e
          | .ok (p2, _) => .ok { t with product := some p2 }
  | .STOCK_OUT =>
      match t.product with
      | none => .ok t
      | some p =>
          match p.reduce_stock |t.quantity| with
          | .error e => .error e
          | .ok (p2, _) => .ok { t with product := some p2 }
  | .ADJUSTMENT =>
      match t.product with
      | none => .ok t
      | some p =>
          if t.quantity > 0 then
            match p.add_stock t.quantity with
            | .error e => .error e
            | .ok (p2, _) => .ok { t with product := some p2 }
          else
            match p.reduce_stock |t.quantity| with
            | .error e => .error e
            | .ok (p2, _) => .ok { t with product := some p2 }
  | _ => .error .notImplemented

/-- `StockTransaction.process_transaction` (lines 131-149): reject if already
processed, re-validate, apply, then mark processed. -/
def StockTransaction.process_transaction (t : StockTransaction) :
    Except StockError StockTransaction :=
  if t.is_processed then
    .error .alreadyProcessed
  else
    match t.validate with
    | [] =>
        match applyTransaction t with
        | .error e => .error e
        | .ok t2 => .ok { t2 with is_processed := true }
    | errs => .error (.validationFailed errs)

/-- `TransactionFactory.create_transaction` (lines 328-341), taking the
parameter bag the route assembles (reference number, product id, quantity,
and — for stock-in — the unit cost). -/
def TransactionFactory.create_transaction (transaction_type : TransactionType)
    (reference_number : String) (product_id : Option Int) (quantity : Int)
    (unit_cost : Option Rat) : Except StockError StockTransaction :=
  match transaction_type with
  | .STOCK_IN => StockInTransaction.init reference_number product_id quantity unit_cost
  | .STOCK_OUT => StockOutTransaction.init reference_number product_id quantity
  | .ADJUSTMENT => StockAdjustmentTransaction.init reference_number product_id quantity
  | _ => .error .unsupportedType

/-- The three operations of the `/products/<id>/stock` route. -/
inductive StockOperation where
  | add
  | reduce
  | set
deriving DecidableEq, Repr

/-- The dispatch of `update_product_stock` (routes/product.py lines 399-421):
`add` and `reduce` call the bounds-checked primitives; `set` rejects only a
negative quantity and otherwise writes `_stock_quantity` directly. -/
def update_product_stock (p : Product) (operation : StockOperation)
    (quantity : Int) : Except StockError (Product × Int) :=
  match operation with
  | .add => p.add_stock quantity
  | .reduce => p.reduce_stock quantity
  | .set =>
      if quantity < 0 then .error .setNegative
      else .ok ({ p with stock_quantity := quantity }, quantity)

/-- A sequence element for claim C1: one sanctioned mutation primitive with
its argument. -/
inductive MutOp where
  | add (quantity : Int)
  | reduce (quantity : Int)
deriving DecidableEq, Repr

/-- Run one sanctioned mutation, keeping the updated product. -/
def applyMutOp (p : Product) : MutOp → Except StockError Product
  | .add q =>
      match p.add_stock q with
      | .error e => .error e
      | .ok (p2, _) => .ok p2
  | .reduce q =>
      match p.reduce_stock q with
      | .error e => .error e
      | .ok (p2, _) => .ok p2

/-- Run a sequence of sanctioned mutations; the sequence succeeds only if
every step does. -/
def applyMutOps (p : Product) : List MutOp → Except StockError Product
  | [] => .ok p
  | op :: ops =>
      match applyMutOp p op with
      | .error e => .error e
      | .ok p2 => applyMutOps p2 ops

/-! ## Helper lemmas -/

theorem add_stock_ok_invariant {p p2 : Product} {q r : Int}
    (hp : StockInvariant p) (h : p.add_stock q = .ok (p2, r)) :
    StockInvariant p2 := by
  obtain ⟨hp0, hp1⟩ := hp
  simp only [Product.add_stock] at h
  split at h
  · simp at h
  · split at h
    · simp at h
    · simp only [Except.ok.injEq, Prod.mk.injEq] at h
      obtain ⟨h1, _⟩ := h
      subst h1
      constructor <;> simp <;> omega

theorem reduce_stock_ok_invariant {p p2 : Product} {q r : Int}
    (hp : StockInvariant p) (h : p.reduce_stock q = .ok (p2, r)) :
    StockInvariant p2 := by
  obtain ⟨hp0, hp1⟩ := hp
  simp only [Product.reduce_stock] at h
  split at h
  · simp at h
  · split at h
    · simp at h
    · simp only [Except.ok.injEq, Prod.mk.injEq] at h
      obtain ⟨h1, _⟩ := h
      subst h1
      constructor <;> simp <;> omega

theorem applyMutOp_ok_invariant {p p2 : Product} {op : MutOp}
    (hp : StockInvariant p) (h : applyMutOp p op = .ok p2) :
    StockInvariant p2 := by
  cases op with
  | add q =>
      simp only [applyMutOp] at h
      cases hres : p.add_stock q with
      | error e => rw [hres] at h; simp at h
      | ok pr =>
          obtain ⟨p3, r⟩ := pr
          rw [hres] at h
          simp only [Except.ok.injEq] at h
          subst h
          exact add_stock_ok_invariant hp hres
  | reduce q =>
      simp only [applyMutOp] at h
      cases hres : p.reduce_stock q with
      | error e => rw [hres] at h; simp at h
      | ok pr =>
          obtain ⟨p3, r⟩ := pr
          rw [hres] at h
          simp only [Except.ok.injEq] at h
          subst h
          exact reduce_stock_ok_invariant hp hres

theorem applyMutOps_ok_invariant {p2 : Product} {ops : List MutOp} :
    ∀ {p : Product}, StockInvariant p → applyMutOps p ops = .ok p2 →
      StockInvariant p2 := by
  induction ops with
  | nil =>
      intro p hp h
      simp only [applyMutOps, Except.ok.injEq] at h
      subst h
      exact hp
  | cons op ops ih =>
      intro p hp h
      simp only [applyMutOps] at h
      cases hstep : applyMutOp p op with
      | error e => rw [hstep] at h; simp at h
      | ok p1 =>
          rw [hstep] at h
          exact ih (applyMutOp_ok_invariant hp hstep) h

/-! ## Claim theorems -/

/-- C1: starting from any product satisfying `0 ≤ stockQuantity ≤ maximumStock`,
every sequence of successful `add_stock` / `reduce_stock` calls — the only
sanctioned mutation primitives — ends in a product still satisfying the
invariant, and each of the two operations individually preserves it. -/
theorem sanctioned_mutations_preserve_invariant (p p2 : Product)
    (ops : List MutOp) (hp : StockInvariant p) :
    (applyMutOps p ops = .ok p2 → StockInvariant p2) ∧
    (∀ q p3 r, p.add_stock q = .ok (p3, r) → StockInvariant p3) ∧
    (∀ q p3 r, p.reduce_stock q = .ok (p3, r) → StockInvariant p3) :=
  ⟨fun h => applyMutOps_ok_invariant hp h,
   fun _ _ _ h => add_stock_ok_invariant hp h,
   fun _ _ _ h => reduce_stock_ok_invariant hp h⟩

def pC1 : Product := { stock_quantity := 5, minimum_stock := 0, maximum_stock := 10 }

def pC1r : Product := { stock_quantity := 6, minimum_stock := 0, maximum_stock := 10 }

theorem sanctioned_mutations_preserve_invariant_witness : StockInvariant pC1r :=
  (sanctioned_mutations_preserve_invariant pC1 pC1r
    [.add 3, .reduce 2] (by decide)).1 (by decide)

/-- C2: calling `process_transaction` on an already-processed transaction
fails with the already-processed error (in this functional embedding an
`.error` result returns no updated transaction or product, i.e. both are
left unchanged); a first successful call applies the variant's stock
mutation and sets `is_processed := true`, after which a second call fails
with the already-processed error. -/
theorem process_transaction_at_most_once (t t2 : StockTransaction) :
    (t.is_processed = true → t.process_transaction = .error .alreadyProcessed) ∧
    (t.process_transaction = .ok t2 →
       t2.is_processed = true ∧
       (∃ t1, applyTransaction t = .ok t1 ∧ t2 = { t1 with is_processed := true }) ∧
       t2.process_transaction = .error .alreadyProcessed) := by
  constructor
  · intro h
    simp [StockTransaction.process_transaction, h]
  · intro h
    simp only [StockTransaction.process_transaction] at h
    split at h
    · simp at h
    · split at h
      · split at h
        · simp at h
        · rename_i happ
          simp only [Except.ok.injEq] at h
          subst h
          refine ⟨rfl, ⟨_, happ, rfl⟩, ?_⟩
          simp [StockTransaction.process_transaction]
      · simp at h

def pC2 : Product := { stock_quantity := 10, minimum_stock := 0, maximum_stock := 50 }

def txC2 : StockTransaction :=
  { transaction_type := .STOCK_OUT, reference_number := "OUT-1",
    product_id := some 1, quantity := -5, unit_cost := none,
    is_processed := false, product := some pC2 }

def txC2done : StockTransaction :=
  { txC2 with is_processed := true,
              product := some { pC2 with stock_quantity := 5 } }

theorem process_transaction_at_most_once_witness :
    ({ txC2 with is_processed := true } : StockTransaction).process_transaction
        = .error .alreadyProcessed ∧
    (txC2done.is_processed = true ∧
     (∃ t1, applyTransaction txC2 = .ok t1 ∧
        txC2done = { t1 with is_processed := true }) ∧
     txC2done.process_transaction = .error .alreadyProcessed) :=
  ⟨(process_transaction_at_most_once { txC2 with is_processed := true } txC2done).1 rfl,
   (process_transaction_at_most_once txC2 txC2done).2 (by decide)⟩

/-- C3: `add_stock qty` fails with the invalid-argument error when `qty ≤ 0`,
fails with the capacity-exceeded error when the new quantity would exceed
`maximum_stock`, and otherwise adds `qty` and returns the new quantity; a
failure returns `.error`, leaving `stock_quantity` unchanged. -/
theorem add_stock_spec (p : Product) (qty : Int) :
    (qty ≤ 0 → p.add_stock qty = .error .invalidArgument) ∧
    (0 < qty → p.maximum_stock < p.stock_quantity + qty →
       p.add_stock qty = .error .capacityExceeded) ∧
    (0 < qty → p.stock_quantity + qty ≤ p.maximum_stock →
       p.add_stock qty
         = .ok ({ p with stock_quantity := p.stock_quantity + qty },
                p.stock_quantity + qty)) := by
  refine ⟨fun h => ?_, fun h1 h2 => ?_, fun h1 h2 => ?_⟩
  · simp [Product.add_stock, h]
  · simp [Product.add_stock, show ¬ qty ≤ 0 from by omega, h2]
  · simp [Product.add_stock, show ¬ qty ≤ 0 from by omega,
          show ¬ p.stock_quantity + qty > p.maximum_stock from by omega]

def pC3 : Product := { stock_quantity := 2, minimum_stock := 0, maximum_stock := 10 }

theorem add_stock_spec_witness :
    pC3.add_stock (-1) = .error .invalidArgument ∧
    pC3.add_stock 9 = .error .capacityExceeded ∧
    pC3.add_stock 3
      = .ok ({ pC3 with stock_quantity := pC3.stock_quantity + 3 },
             pC3.stock_quantity + 3) :=
  ⟨(add_stock_spec pC3 (-1)).1 (by decide),
   (add_stock_spec pC3 9).2.1 (by decide) (by decide),
   (add_stock_spec pC3 3).2.2 (by decide) (by decide)⟩

/-- C4: `reduce_stock qty` fails with the invalid-argument error when
`qty ≤ 0` (in particular at `0` and `-1`), fails with the
insufficient-stock error when `qty > stock_quantity`, and otherwise
subtracts `qty` and returns the new quantity; a failure returns `.error`,
leaving `stock_quantity` unchanged. -/
theorem reduce_stock_spec (p : Product) (qty : Int) :
    (qty ≤ 0 → p.reduce_stock qty = .error .invalidArgument) ∧
    p.reduce_stock 0 = .error .invalidArgument ∧
    p.reduce_stock (-1) = .error .invalidArgument ∧
    (0 < qty → p.stock_quantity < qty →
       p.reduce_stock qty = .error .insufficientStock) ∧
    (0 < qty → qty ≤ p.stock_quantity →
       p.reduce_stock qty
         = .ok ({ p with stock_quantity := p.stock_quantity - qty },
                p.stock_quantity - qty)) := by
  refine ⟨fun h => ?_, ?_, ?_, fun h1 h2 => ?_, fun h1 h2 => ?_⟩
  · simp [Product.reduce_stock, h]
  · simp [Product.reduce_stock]
  · simp [Product.reduce_stock]
  · simp [Product.reduce_stock, show ¬ qty ≤ 0 from by omega, h2]
  · simp [Product.reduce_stock, show ¬ qty ≤ 0 from by omega,
          show ¬ qty > p.stock_quantity from by omega]

def pC4 : Product := { stock_quantity := 7, minimum_stock := 0, maximum_stock := 10 }

theorem reduce_stock_spec_witness :
    pC4.reduce_stock (-3) = .error .invalidArgument ∧
    pC4.reduce_stock 8 = .error .insufficientStock ∧
    pC4.reduce_stock 5
      = .ok ({ pC4 with stock_quantity := pC4.stock_quantity - 5 },
             pC4.stock_quantity - 5) :=
  ⟨(reduce_stock_spec pC4 (-3)).1 (by decide),
   (reduce_stock_spec pC4 8).2.2.2.1 (by decide) (by decide),
   (reduce_stock_spec pC4 5).2.2.2.2 (by decide) (by decide)⟩

theorem init_ok_fields {ttype : TransactionType} {ref : String}
    {pid : Option Int} {q : Int} {c : Option Rat} {t : StockTransaction}
    (h : StockTransaction.init ttype ref pid q c = .ok t) :
    t.transaction_type = ttype ∧ t.quantity = q ∧ t.product_id = pid ∧
    t.product = none ∧ t.is_processed = false ∧ q ≠ 0 := by
  simp only [StockTransaction.init] at h
  cases href : set_reference_number ref with
  | error e => rw [href] at h; simp at h
  | ok ref2 =>
    rw [href] at h
    cases hq : set_quantity q with
    | error e => rw [hq] at h; simp at h
    | ok q2 =>
      rw [hq] at h
      cases hc : set_unit_cost c with
      | error e => rw [hc] at h; simp at h
      | ok c2 =>
        rw [hc] at h
        simp only [Except.ok.injEq] at h
        subst h
        simp only [set_quantity] at hq
        split at hq
        · simp at hq
        · rename_i hq0
          simp only [Except.ok.injEq] at hq
          subst hq
          exact ⟨rfl, rfl, rfl, rfl, rfl, hq0⟩

/-- C5 counterexample: constructing a StockIn transaction from the nonzero
input quantity `-5` succeeds, and the stored quantity is `-5`, which differs
from `abs (-5) = 5`: the constructor does not normalize the input to its
positive magnitude. -/
theorem stockIn_no_normalization_counterexample :
    (StockInTransaction.init "TRX-1" (some 1) (-5) (some 2)).map
        StockTransaction.quantity = .ok (-5) ∧
    (-5 : Int) ≠ |(-5 : Int)| := by decide

/-- C5 amended: a StockIn transaction constructed from a nonzero input
quantity `q` stores `q` itself — the constructor performs no sign
normalization — and positivity is enforced only by `validate`, which
reports the stock-in-quantity error exactly when the stored quantity is
not positive. -/
theorem stockIn_stores_input_quantity (ref : String) (pid : Option Int)
    (q : Int) (c : Option Rat) (t : StockTransaction)
    (h : StockInTransaction.init ref pid q c = .ok t) :
    t.quantity = q ∧ (VError.stockInQtyNotPositive ∈ t.validate ↔ q ≤ 0) := by
  obtain ⟨hty, hqty, hpid, hprod, _, hne⟩ :=
    init_ok_fields (StockInTransaction.init.eq_1 .. ▸ h)
  refine ⟨hqty, ?_⟩
  simp only [StockTransaction.validate, hty, stockIn_validate,
    StockTransaction.base_validate, List.mem_append, hqty]
  by_cases hq : q ≤ 0 <;> simp [hq]

def txC5 : StockTransaction :=
  { transaction_type := .STOCK_IN, reference_number := "TRX-1",
    product_id := some 1, quantity := -5, unit_cost := some 2,
    is_processed := false, product := none }

theorem stockIn_stores_input_quantity_witness :
    txC5.quantity = -5 ∧
    (VError.stockInQtyNotPositive ∈ txC5.validate ↔ (-5 : Int) ≤ 0) :=
  stockIn_stores_input_quantity "TRX-1" (some 1) (-5) (some 2) txC5 (by decide)

/-- C6: a StockOut transaction constructed from a nonzero input quantity `q`
stores the signed quantity `-abs q`; once the product `p` is bound, its
`validate` reports the insufficient-stock error exactly when
`p.stock_quantity < abs q`. -/
theorem stockOut_sign_and_availability (ref : String) (pid : Option Int)
    (q : Int) (t : StockTransaction) (p : Product)
    (h : StockOutTransaction.init ref pid q = .ok t) :
    t.quantity = -|q| ∧
    (VError.insufficientStock ∈
        ({ t with product := some p } : StockTransaction).validate ↔
      p.stock_quantity < |q|) := by
  obtain ⟨hty, hqty, hpid, hprod, _, hne⟩ :=
    init_ok_fields (StockOutTransaction.init.eq_1 .. ▸ h)
  refine ⟨hqty, ?_⟩
  simp only [StockTransaction.validate, hty, stockOut_validate,
    StockTransaction.base_validate, Product.check_availability,
    List.mem_append, hqty]
  by_cases hs : p.stock_quantity < |q|
  · simp [hs, abs_neg, abs_abs, show ¬ p.stock_quantity ≥ |q| from by omega]
  · simp [hs, abs_neg, abs_abs, show p.stock_quantity ≥ |q| from by omega]

def txC6 : StockTransaction :=
  { transaction_type := .STOCK_OUT, reference_number := "OUT-5",
    product_id := some 1, quantity := -5, unit_cost := none,
    is_processed := false, product := none }

def pC6 : Product := { stock_quantity := 3, minimum_stock := 0, maximum_stock := 50 }

theorem stockOut_sign_and_availability_witness :
    txC6.quantity = -|(5 : Int)| ∧
    (VError.insufficientStock ∈
        ({ txC6 with product := some pC6 } : StockTransaction).validate ↔
      pC6.stock_quantity < |(5 : Int)|) :=
  stockOut_sign_and_availability "OUT-5" (some 1) 5 txC6 pC6 (by decide)

def productC7 : Product :=
  { stock_quantity := 100, minimum_stock := 10, maximum_stock := 100 }

def txC7 : StockTransaction :=
  { transaction_type := .STOCK_IN, reference_number := "SI-100",
    product_id := some 1, quantity := 20, unit_cost := some 3,
    is_processed := false, product := some productC7 }

/-- C7: with the product at quantity 100 of maximum 100, a StockIn
transaction of 20 is constructed successfully, its `validate` returns no
errors (StockIn validation has no capacity check), and processing fails in
the apply step with the capacity-exceeded error; the `.error` result returns
no updated state, so the product stays at 100 and the transaction stays
unprocessed. -/
theorem stockIn_capacity_scenario :
    StockInTransaction.init "SI-100" (some 1) 20 (some 3)
        = .ok { txC7 with product := none } ∧
    txC7.validate = [] ∧
    txC7.process_transaction = .error .capacityExceeded ∧
    txC7.is_processed = false ∧
    productC7.stock_quantity = 100 ∧ productC7.maximum_stock = 100 := by decide

/-- C8: the route's `set` operation writes `stock_quantity` directly: for
every `q ≥ 0` it succeeds and sets the quantity to `q` — even past
`maximum_stock`, so it does not preserve the stock invariant — and it is
rejected exactly when `q < 0`. -/
theorem set_operation_bypasses_bounds (p : Product) (q : Int) :
    (0 ≤ q → update_product_stock p .set q
        = .ok ({ p with stock_quantity := q }, q)) ∧
    (q < 0 → update_product_stock p .set q = .error .setNegative) ∧
    (0 ≤ q → p.maximum_stock < q →
        ¬ StockInvariant { p with stock_quantity := q }) := by
  refine ⟨fun h => ?_, fun h => ?_, fun h1 h2 hinv => ?_⟩
  · simp [update_product_stock, show ¬ q < 0 from by omega]
  · simp [update_product_stock, h]
  · obtain ⟨ha, hb⟩ := hinv
    simp at hb
    omega

def pC8 : Product := { stock_quantity := 4, minimum_stock := 0, maximum_stock := 10 }

theorem set_operation_bypasses_bounds_witness :
    update_product_stock pC8 .set 99
        = .ok ({ pC8 with stock_quantity := 99 }, 99) ∧
    update_product_stock pC8 .set (-1) = .error .setNegative ∧
    ¬ StockInvariant { pC8 with stock_quantity := 99 } :=
  ⟨(set_operation_bypasses_bounds pC8 99).1 (by decide),
   (set_operation_bypasses_bounds pC8 (-1)).2.1 (by decide),
   (set_operation_bypasses_bounds pC8 99).2.2 (by decide) (by decide)⟩

/-- C9: the factory fails with the unsupported-type error for every tag
other than STOCK_IN / STOCK_OUT / ADJUSTMENT — in particular for the
declared-but-unimplemented TRANSFER and RETURN tags — constructing nothing,
and for the three supported tags it dispatches to the matching variant
constructor. -/
theorem factory_dispatch (ref : String) (pid : Option Int) (q : Int)
    (c : Option Rat) :
    (∀ ty : TransactionType, ty ≠ .STOCK_IN → ty ≠ .STOCK_OUT →
       ty ≠ .ADJUSTMENT →
       TransactionFactory.create_transaction ty ref pid q c
         = .error .unsupportedType) ∧
    TransactionFactory.create_transaction .STOCK_IN ref pid q c
      = StockInTransaction.init ref pid q c ∧
    TransactionFactory.create_transaction .STOCK_OUT ref pid q c
      = StockOutTransaction.init ref pid q ∧
    TransactionFactory.create_transaction .ADJUSTMENT ref pid q c
      = StockAdjustmentTransaction.init ref pid q := by
  refine ⟨fun ty h1 h2 h3 => ?_, rfl, rfl, rfl⟩
  cases ty
  · exact absurd rfl h1
  · exact absurd rfl h2
  · exact absurd rfl h3
  · rfl
  · rfl

theorem factory_dispatch_witness :
    TransactionFactory.create_transaction .TRANSFER "TRX-1" (some 1) 5 none
      = .error .unsupportedType ∧
    TransactionFactory.create_transaction .STOCK_IN "TRX-1" (some 1) 5 none
      = StockInTransaction.init "TRX-1" (some 1) 5 none :=
  ⟨(factory_dispatch "TRX-1" (some 1) 5 none).1 .TRANSFER
      (by decide) (by decide) (by decide),
   (factory_dispatch "TRX-1" (some 1) 5 none).2.1⟩

/-- C10: a transaction of any of the three implemented variants whose
`product` relationship is unbound while its `product_id` is set, and which
is otherwise processable (unprocessed and passing validation), processes
without error: the apply step's `if self.product:` guard silently skips the
stock mutation, and the transaction is nevertheless marked processed — the
result differs from the input only in `is_processed := true`. -/
theorem unbound_product_processed_silently (t : StockTransaction)
    (hty : t.transaction_type = .STOCK_IN ∨ t.transaction_type = .STOCK_OUT ∨
           t.transaction_type = .ADJUSTMENT)
    (hp : t.is_processed = false)
    (hpid : pidTruthy t.product_id = true)
    (hprod : t.product = none)
    (hv : t.validate = []) :
    t.process_transaction = .ok { t with is_processed := true } := by
  have happ : applyTransaction t = .ok t := by
    rcases hty with h | h | h <;> simp [applyTransaction, h, hprod]
  simp [StockTransaction.process_transaction, hp, hv, happ]

def txC10 : StockTransaction :=
  { transaction_type := .STOCK_OUT, reference_number := "OUT-7",
    product_id := some 1, quantity := -5, unit_cost := none,
    is_processed := false, product := none }

theorem unbound_product_processed_silently_witness :
    txC10.process_transaction = .ok { txC10 with is_processed := true } :=
  unbound_product_processed_silently txC10 (by decide) (by decide)
    (by decide) (by decide) (by decide)

end Alfamart






